import Mathlib

set_option maxRecDepth 2000

/-!
Verification development for the CIViC MCP server.

The definitions below are a shallow embedding of the two server variants of
the repository: `server.py` (the full MCP server: GraphQL query builder,
remote-outcome classification and report formatting) and
`working_server.py` (the hand-rolled JSON-RPC loop with its own query
builder, dispatcher and formatter).  Each definition carries a comment
naming the Python function or code region it embeds.  Python `Optional`
values are embedded as `Option`; Python string truthiness (`if s:`) is
embedded as an emptiness test; Python integers are embedded as `Int`
(arbitrary precision) or `Nat` where the source only ever holds counts.
-/

/-! ## Generic helpers -/

/-- Propositional substring containment: `frag` occurs contiguously in `hay`. -/
def strHas (hay frag : String) : Prop := ∃ a b : String, hay = a ++ frag ++ b

/-- Embedding of Python `str.upper()` (code-point-wise upper-casing), as used
on the enum-valued filters in `server.py:search_clinical_evidence`. -/
def pyUpper (s : String) : String := String.mk (s.data.map Char.toUpper)

/-- Embedding of Python slicing `s[:n]` (first `n` code points). -/
def pyTake (s : String) (n : Nat) : String := String.mk (s.data.take n)

/-- Helper for `commaFmt`: walks the reversed digit list and inserts a comma
after every third digit. -/
def commaRev : List Char → Nat → List Char
  | [], _ => []
  | c :: cs, k => if k = 3 then ',' :: c :: commaRev cs 1 else c :: commaRev cs (k + 1)

/-- Embedding of Python's thousands-separator format spec (`format(n, ',')`),
used by the report formatters for all counts. -/
def commaFmt (n : Nat) : String := String.mk ((commaRev (toString n).data.reverse 0).reverse)

/-- Embedding of Python `d.get(key, 'N/A')` for string-valued fields. -/
def orNA : Option String → String
  | some s => s
  | none => "N/A"

/-- Embedding of Python `d.get(key, 'Unknown')` for string-valued fields. -/
def orUnknown : Option String → String
  | some s => s
  | none => "Unknown"

/-- Embedding of a Python f-string rendering of an `Optional[str]` value:
`None` prints as the literal text `None`. -/
def pyOptStr : Option String → String
  | some s => s
  | none => "None"

/-- The distinct elements of a list (the underlying set of Python
`set(genes)`); used as the canonical reference point for admissible set
iteration orders. -/
def distinctList : List String → List String
  | [] => []
  | s :: rest => if s ∈ rest then distinctList rest else s :: distinctList rest

/-! ## `server.py`: configuration and the evidence-search query builder -/

/-- Embedding of the `ClinicalEvidenceConfig` dataclass (`server.py` lines
23-28). -/
structure ClinicalEvidenceConfig where
  base_url : String := "https://civicdb.org/api/graphql"
  timeout : Nat := 30
  max_results : Int := 100

/-- The configuration used by the module-level client `api_client = CivicAPI()`
(`server.py` line 519): all dataclass defaults. -/
def defaultConfig : ClinicalEvidenceConfig := {}

/-- Keyword arguments of `CivicAPI.search_clinical_evidence` (`server.py`
lines 109-121): ten optional filters plus the requested page size
(default 25). -/
structure SearchParams where
  disease_name : Option String := none
  therapy_name : Option String := none
  gene_name : Option String := none
  variant_name : Option String := none
  evidence_type : Option String := none
  evidence_level : Option String := none
  clinical_significance : Option String := none
  therapy_type : Option String := none
  molecular_profile_name : Option String := none
  source_type : Option String := none
  page_size : Int := 25

/-- One string-valued filter fragment: Python
`if value: filters.append(f'field: "value"')` — the value is quoted verbatim,
and Python truthiness skips both `None` and the empty string. -/
def quotedFrag (field : String) : Option String → List String
  | some s => if s = "" then [] else [field ++ ": \"" ++ s ++ "\""]
  | none => []

/-- One enum-valued filter fragment: Python
`if value: filters.append(f'field: {value.upper()}')` — upper-cased and
emitted unquoted. -/
def enumFrag (field : String) : Option String → List String
  | some s => if s = "" then [] else [field ++ ": " ++ pyUpper s]
  | none => []

/-- The filter list built by `search_clinical_evidence` (`server.py` lines
141-163), in the source's fixed insertion order. -/
def buildFilters (p : SearchParams) : List String :=
  quotedFrag "diseaseName" p.disease_name ++
  quotedFrag "therapyName" p.therapy_name ++
  quotedFrag "geneName" p.gene_name ++
  quotedFrag "variantName" p.variant_name ++
  enumFrag "evidenceType" p.evidence_type ++
  enumFrag "evidenceLevel" p.evidence_level ++
  enumFrag "clinicalSignificance" p.clinical_significance ++
  quotedFrag "therapyType" p.therapy_type ++
  quotedFrag "molecularProfileName" p.molecular_profile_name ++
  quotedFrag "sourceType" p.source_type

/-- `filter_string = ", ".join(filters) if filters else ""` (`server.py`
line 166). -/
def filterString (p : SearchParams) : String :=
  if (buildFilters p).isEmpty then "" else ", ".intercalate (buildFilters p)

/-- The f-string text of the `SearchClinicalEvidence` query before the
interpolated `filter_string` (`server.py` lines 189-192). -/
def queryHead : String := "
        query SearchClinicalEvidence \x7b
            evidenceItems(
                "

/-- The f-string text between `filter_string` and the interpolated page
size (`server.py` lines 192-193). -/
def queryMid : String := "
                first: "

/-- The fixed f-string text of the `SearchClinicalEvidence` query after the
page-size argument (`server.py` lines 194-266). -/
def queryTail : String := "
                sortBy: \x7b
                    field: EVIDENCE_LEVEL
                    direction: ASC
                \x7d
            ) \x7b
                totalCount
                pageInfo \x7b
                    hasNextPage
                    hasPreviousPage
                    startCursor
                    endCursor
                \x7d
                edges \x7b
                    node \x7b
                        id
                        name
                        description
                        evidenceLevel
                        evidenceType
                        evidenceDirection
                        clinicalSignificance
                        therapyInteractionType
                        status
                        significance
                        molecularProfile \x7b
                            id
                            name
                            variants \x7b
                                id
                                name
                                gene \x7b
                                    id
                                    name
                                    entrezId
                                \x7d
                            \x7d
                        \x7d
                        disease \x7b
                            id
                            name
                            doid
                            diseaseUrl
                        \x7d
                        therapies \x7b
                            id
                            name
                            ncitId
                            therapyUrl
                        \x7d
                        source \x7b
                            id
                            citation
                            sourceType
                            publicationDate
                            journal
                            fullJournalTitle
                            pubmedId
                        \x7d
                        phenotypes \x7b
                            id
                            name
                            hpoId
                        \x7d
                        variantOrigin
                        ampLevel
                        nccnGuideline
                        fdaApproval
                        regulatoryApproval
                    \x7d
                \x7d
            \x7d
        \x7d
        "

/-- The full query document built by `search_clinical_evidence` (`server.py`
lines 189-266): the fixed text with `filter_string` and
`min(page_size, self.config.max_results)` interpolated. -/
def civicSearchQuery (cfg : ClinicalEvidenceConfig) (p : SearchParams) : String :=
  queryHead ++ filterString p ++ queryMid ++
    toString (min p.page_size cfg.max_results) ++ queryTail

/-- Maps a filter value that Python truthiness treats as absent (the empty
string) to `none`; all other values are unchanged. -/
def normEmptyStr : Option String → Option String
  | some s => if s = "" then none else some s
  | none => none

/-- Normalizes every filter of a `SearchParams` by `normEmptyStr`; the page
size is untouched. -/
def normalizeParams (p : SearchParams) : SearchParams :=
  { p with
    disease_name := normEmptyStr p.disease_name
    therapy_name := normEmptyStr p.therapy_name
    gene_name := normEmptyStr p.gene_name
    variant_name := normEmptyStr p.variant_name
    evidence_type := normEmptyStr p.evidence_type
    evidence_level := normEmptyStr p.evidence_level
    clinical_significance := normEmptyStr p.clinical_significance
    therapy_type := normEmptyStr p.therapy_type
    molecular_profile_name := normEmptyStr p.molecular_profile_name
    source_type := normEmptyStr p.source_type }

/-! ## `working_server.py`: the disease-evidence search query builder -/

/-- The f-string text of the `SearchEvidence` query before the interpolated
disease name (`working_server.py` lines 63-65). -/
def wsQueryHead : String := "\n        query SearchEvidence \x7b\n            evidenceItems(diseaseName: \""

/-- The f-string text between the disease name and the interpolated limit
(`working_server.py` line 65). -/
def wsQueryMid : String := "\", first: "

/-- The fixed f-string text of the `SearchEvidence` query after the limit
(`working_server.py` lines 65-88). -/
def wsQueryTail : String := ") \x7b
                totalCount
                edges \x7b
                    node \x7b
                        id
                        name
                        evidenceLevel
                        evidenceType
                        status
                        disease \x7b
                            name
                        \x7d
                        molecularProfile \x7b
                            name
                        \x7d
                        source \x7b
                            citation
                            publicationYear
                        \x7d
                    \x7d
                \x7d
            \x7d
        \x7d
        "

/-- The query document built by `CivicAPI.search_evidence` in
`working_server.py` (lines 61-88): the requested `limit` is interpolated
verbatim — no clamping expression appears anywhere in this builder. -/
def searchEvidenceQuery (disease_name : String) (limit : Int) : String :=
  wsQueryHead ++ disease_name ++ wsQueryMid ++ toString limit ++ wsQueryTail

/-- The declared schema maximum for the `limit` argument of the
`search_disease_evidence` tool (`working_server.py` lines 154-160,
`"maximum": 10`); it is documentation only and is never enforced by the
handler (line 202) or the query builder. -/
def searchDiseaseEvidenceLimitMaximum : Nat := 10

/-! ## Lemmas about the query builders -/

/-- Splitting an append chain around a designated fragment. -/
theorem strHas_of_split (hay a frag b : String) (h : hay = a ++ frag ++ b) :
    strHas hay frag := ⟨a, b, h⟩

theorem quotedFrag_normEmptyStr (f : String) (v : Option String) :
    quotedFrag f (normEmptyStr v) = quotedFrag f v := by
  cases v with
  | none => rfl
  | some s =>
    by_cases h : s = "" <;> simp [normEmptyStr, quotedFrag, h]

theorem enumFrag_normEmptyStr (f : String) (v : Option String) :
    enumFrag f (normEmptyStr v) = enumFrag f v := by
  cases v with
  | none => rfl
  | some s =>
    by_cases h : s = "" <;> simp [normEmptyStr, enumFrag, h]

theorem buildFilters_normalize (p : SearchParams) :
    buildFilters (normalizeParams p) = buildFilters p := by
  simp [buildFilters, normalizeParams, quotedFrag_normEmptyStr, enumFrag_normEmptyStr]

/-! ## Claim theorems: C1, C4, C10 -/

/-- The filter set of the first C1 scenario: gene `EGFR`, evidence level `B`,
requested bound 25. -/
def c1Params : SearchParams :=
  { gene_name := some "EGFR", evidence_level := some "B", page_size := 25 }

/-- The filter set of the second C1 scenario: no filters, requested bound
500. -/
def c1EmptyParams : SearchParams := { page_size := 500 }

/-- Claim C1: with filters gene `EGFR` and evidence level `B` and requested
bound 25 under configured maximum 100, the built query contains the quoted
fragment `geneName: "EGFR"`, the upper-cased unquoted fragment
`evidenceLevel: B`, and the page-size argument `first: 25`; with no filters
and requested bound 500 it contains the clamped page-size argument
`first: 100`. -/
theorem c1_query_fragments :
    strHas (civicSearchQuery defaultConfig c1Params) "geneName: \"EGFR\"" ∧
    strHas (civicSearchQuery defaultConfig c1Params) "evidenceLevel: B" ∧
    strHas (civicSearchQuery defaultConfig c1Params) "first: 25" ∧
    strHas (civicSearchQuery defaultConfig c1EmptyParams) "first: 100" := by
  have h1 : civicSearchQuery defaultConfig c1Params =
      queryHead ++ "geneName: \"EGFR\", evidenceLevel: B" ++ queryMid ++ "25" ++ queryTail := rfl
  have h2 : civicSearchQuery defaultConfig c1EmptyParams =
      queryHead ++ "" ++ queryMid ++ "100" ++ queryTail := rfl
  refine ⟨⟨queryHead, ", evidenceLevel: B" ++ queryMid ++ "25" ++ queryTail, ?_⟩,
          ⟨queryHead ++ "geneName: \"EGFR\", ", queryMid ++ "25" ++ queryTail, ?_⟩,
          ⟨queryHead ++ "geneName: \"EGFR\", evidenceLevel: B" ++ "\n                ",
            queryTail, ?_⟩,
          ⟨queryHead ++ "" ++ "\n                ", queryTail, ?_⟩⟩
  · rw [h1,
      show ("geneName: \"EGFR\", evidenceLevel: B" : String) =
        "geneName: \"EGFR\"" ++ ", evidenceLevel: B" from rfl]
    simp only [String.append_assoc]
  · rw [h1,
      show ("geneName: \"EGFR\", evidenceLevel: B" : String) =
        "geneName: \"EGFR\", " ++ "evidenceLevel: B" from rfl]
    simp only [String.append_assoc]
  · rw [h1, show queryMid = "\n                " ++ "first: " from rfl,
      show ("first: 25" : String) = "first: " ++ "25" from rfl]
    simp only [String.append_assoc]
  · rw [h2, show queryMid = "\n                " ++ "first: " from rfl,
      show ("first: 100" : String) = "first: " ++ "100" from rfl]
    simp only [String.append_assoc]

/-- Claim C4, counterexample: the disease-evidence search query builder of
`working_server.py` embeds the requested bound verbatim.  At disease
`Lung Cancer` with requested bound 500, the built query contains
`first: 500`, which exceeds the tool's declared maximum of 10 (and even the
other builder's configured maximum of 100) — so the page-size argument of
this built query is not clamped to any configured maximum. -/
theorem c4_counterexample :
    strHas (searchEvidenceQuery "Lung Cancer" 500) "first: 500" ∧
    ¬((500 : Int) ≤ (searchDiseaseEvidenceLimitMaximum : Int)) ∧
    ¬((500 : Int) ≤ defaultConfig.max_results) := by
  refine ⟨⟨wsQueryHead ++ "Lung Cancer" ++ "\", ", wsQueryTail, ?_⟩, by decide, by decide⟩
  have h : searchEvidenceQuery "Lung Cancer" 500 =
      wsQueryHead ++ "Lung Cancer" ++ wsQueryMid ++ "500" ++ wsQueryTail := rfl
  rw [h, show wsQueryMid = "\", " ++ "first: " from rfl,
    show ("first: 500" : String) = "first: " ++ "500" from rfl]
  simp only [String.append_assoc]

/-- Claim C4, amended: the evidence-search query builder of `server.py`
embeds `min(page_size, max_results)` as its page-size argument, which never
exceeds the configured maximum; the disease-evidence search query builder of
`working_server.py`, however, embeds the requested bound verbatim, with no
clamping. -/
theorem c4_amended (cfg : ClinicalEvidenceConfig) (p : SearchParams)
    (dn : String) (lim : Int) :
    (strHas (civicSearchQuery cfg p) ("first: " ++ toString (min p.page_size cfg.max_results)) ∧
      min p.page_size cfg.max_results ≤ cfg.max_results) ∧
    strHas (searchEvidenceQuery dn lim) ("first: " ++ toString lim) := by
  refine ⟨⟨⟨queryHead ++ filterString p ++ "\n                ", queryTail, ?_⟩,
      min_le_right _ _⟩,
    ⟨wsQueryHead ++ dn ++ "\", ", wsQueryTail, ?_⟩⟩
  · rw [show civicSearchQuery cfg p =
        queryHead ++ filterString p ++ ("\n                " ++ "first: ") ++
          toString (min p.page_size cfg.max_results) ++ queryTail from rfl]
    simp only [String.append_assoc]
  · rw [show searchEvidenceQuery dn lim =
        wsQueryHead ++ dn ++ ("\", " ++ "first: ") ++ toString lim ++ wsQueryTail from rfl]
    simp only [String.append_assoc]

/-- Claim C10: a filter supplied as the empty string is omitted from the
built query exactly as if it were absent — normalizing every empty-string
filter to `none` leaves the built query unchanged. -/
theorem c10_empty_filter_omitted (p : SearchParams) :
    civicSearchQuery defaultConfig p = civicSearchQuery defaultConfig (normalizeParams p) := by
  unfold civicSearchQuery filterString
  rw [buildFilters_normalize, show (normalizeParams p).page_size = p.page_size from rfl]

/-! ## `server.py`: remote-outcome classification -/

/-- The decoded JSON body of a 200 response from the GraphQL endpoint: an
optional top-level `errors` list and an optional `data` payload. -/
structure GraphQLReply (α : Type) where
  errors : Option (List String) := none
  data : Option α := none

/-- One HTTP response as observed by `search_clinical_evidence`
(`server.py` lines 274-289): the status code, the decoded JSON body (read
only in the 200 branch) and the raw body text (read only in the non-200
branch). -/
structure HttpResponse (α : Type) where
  status : Nat
  body : GraphQLReply α := {}
  bodyText : String := ""

/-- The payload of the exception raised by the remote-call classification in
`server.py` lines 279-289: a transport failure carries the status code and
raw body text; a query failure carries the declared GraphQL error payload;
`missingData` models the `KeyError` of `result["data"]` on a well-statused
body that has neither an error list nor a `data` member. -/
inductive ApiFailure where
  | transport (status : Nat) (bodyText : String)
  | graphql (errors : List String)
  | missingData

/-- Embedding of the outcome classification in `search_clinical_evidence`
(`server.py` lines 279-289): status 200 with a top-level `errors` key raises
the GraphQL error payload; status 200 without one returns `result["data"]`
unmodified; any other status raises a failure carrying the status code and
the raw body text. -/
def classifyResponse {α : Type} (r : HttpResponse α) : Except ApiFailure α :=
  if r.status = 200 then
    match r.body.errors with
    | some errs => .error (.graphql errs)
    | none =>
      match r.body.data with
      | some d => .ok d
      | none => .error .missingData
  else
    .error (.transport r.status r.bodyText)

/-- One remote call consumes exactly one response — `session.post` is issued
once and its outcome is classified directly, with no retry loop anywhere in
`server.py` lines 272-292.  The call's result therefore depends only on the
first response of any response sequence. -/
def executeQuery {α : Type} (responses : Nat → HttpResponse α) : Except ApiFailure α :=
  classifyResponse (responses 0)

/-- Claim C8: the remote client classifies every call outcome into exactly
the three documented cases, and only the first response of a run is ever
consumed (no retry). -/
theorem c8_remote_classification (α : Type) (r : HttpResponse α) :
    (r.status ≠ 200 → classifyResponse r = .error (.transport r.status r.bodyText)) ∧
    (∀ errs, r.status = 200 → r.body.errors = some errs →
      classifyResponse r = .error (.graphql errs)) ∧
    (∀ d, r.status = 200 → r.body.errors = none → r.body.data = some d →
      classifyResponse r = .ok d) ∧
    (∀ responses responses' : Nat → HttpResponse α, responses 0 = responses' 0 →
      executeQuery responses = executeQuery responses') := by
  refine ⟨fun h => ?_, fun errs h he => ?_, fun d h he hd => ?_, fun a b hab => ?_⟩
  · simp [classifyResponse, h]
  · simp [classifyResponse, h, he]
  · simp [classifyResponse, h, he, hd]
  · unfold executeQuery
    rw [hab]

/-- A transport-failure response observed at status 500. -/
def r500 : HttpResponse Nat := { status := 500, bodyText := "Server Error" }

/-- A successful response carrying `data`. -/
def r200ok : HttpResponse Nat := { status := 200, body := { data := some 7 } }

/-- Witness for C8 at concrete responses. -/
theorem c8_remote_classification_witness :
    classifyResponse r500 = .error (.transport 500 "Server Error") ∧
    classifyResponse r200ok = Except.ok 7 :=
  ⟨(c8_remote_classification Nat r500).1 (by decide),
   (c8_remote_classification Nat r200ok).2.2.1 7 rfl rfl rfl⟩

/-! ## `server.py`: the evidence-search result formatter -/

/-- A `gene` object inside a variant of a molecular profile. -/
structure GeneObj where
  name : Option String := none

/-- A `variants` element of a molecular profile. -/
structure VariantObj where
  name : Option String := none
  gene : Option GeneObj := none

/-- A `molecularProfile` object of an evidence node. -/
structure MolecularProfileObj where
  variants : List VariantObj := []

/-- A `disease` object of an evidence node. -/
structure DiseaseObj where
  name : Option String := none

/-- A `therapies` element of an evidence node. -/
structure TherapyObj where
  name : Option String := none

/-- A `source` object of an evidence node. -/
structure SourceObj where
  citation : Option String := none
  pubmedId : Option String := none

/-- One evidence record (`edge['node']`) as consumed by the formatter in
`handle_call_tool` (`server.py` lines 701-758).  `id` is accessed with
`evidence['id']` and so is required; every other field is read through
`.get` with a default. -/
structure EvidenceNode where
  id : Nat
  name : Option String := none
  evidenceLevel : Option String := none
  evidenceType : Option String := none
  clinicalSignificance : Option String := none
  status : Option String := none
  disease : Option DiseaseObj := none
  molecularProfile : Option MolecularProfileObj := none
  therapies : List TherapyObj := []
  source : Option SourceObj := none
  description : Option String := none

/-- The gene-name list of a molecular profile (`server.py` line 724):
`[v.get('gene', {}).get('name', 'Unknown') for v in variants if v.get('gene')]`. -/
def genesOfMp (mp : MolecularProfileObj) : List String :=
  mp.variants.filterMap (fun v => v.gene.map (fun g => orUnknown g.name))

/-- The gene-name list of an evidence record (empty when it has no
molecular profile). -/
def genesOf (ev : EvidenceNode) : List String :=
  match ev.molecularProfile with
  | some mp => genesOfMp mp
  | none => []

/-- `setOrder` is an admissible iteration order of Python `set(...)` applied
to a gene-name list: it enumerates exactly the distinct elements, in some
order.  CPython does not fix that order across interpreter runs (string
hashing is randomized), so any admissible order can be observed. -/
def SetOrderOK (setOrder : List String → List String) : Prop :=
  ∀ l : List String, (setOrder l).Perm (distinctList l)

/-- One admissible set iteration order: first-occurrence order. -/
def dedupOrder : List String → List String := distinctList

/-- Another admissible set iteration order: reversed first-occurrence
order. -/
def revDedupOrder : List String → List String := fun l => (distinctList l).reverse

/-- The disease section of an evidence block (`server.py` lines 715-717). -/
def diseaseLines (ev : EvidenceNode) : List String :=
  match ev.disease with
  | some d => ["**Disease:** " ++ orNA d.name]
  | none => []

/-- The gene/variant section of an evidence block (`server.py` lines
720-729): rendered only when the record has a molecular profile with a
non-empty variant list; genes are joined after `set(...)` (iteration order
`setOrder`), variants are joined in encounter order. -/
def mpLines (setOrder : List String → List String) (ev : EvidenceNode) : List String :=
  match ev.molecularProfile with
  | some mp =>
    if mp.variants.isEmpty then []
    else
      ["**Genes:** " ++ ", ".intercalate (setOrder (genesOfMp mp)),
       "**Variants:** " ++ ", ".intercalate (mp.variants.map (fun v => orUnknown v.name))]
  | none => []

/-- The therapy section of an evidence block (`server.py` lines 732-735). -/
def therapyLines (ev : EvidenceNode) : List String :=
  if ev.therapies.isEmpty then []
  else ["**Therapies:** " ++ ", ".intercalate (ev.therapies.map (fun t => orUnknown t.name))]

/-- The source section of an evidence block (`server.py` lines 738-745):
the citation, with the PubMed identifier appended in parentheses when
truthy. -/
def sourceLines (ev : EvidenceNode) : List String :=
  match ev.source with
  | some s =>
    match s.pubmedId with
    | some pid =>
      if pid = "" then ["**Source:** " ++ orNA s.citation]
      else ["**Source:** " ++ orNA s.citation ++ " (PMID: " ++ pid ++ ")"]
    | none => ["**Source:** " ++ orNA s.citation]
  | none => []

/-- The description section of an evidence block (`server.py` lines
748-758): a truthy description longer than 300 characters is truncated to
its first 297 characters plus `"..."`; the block always ends with one empty
line. -/
def descriptionLines (ev : EvidenceNode) : List String :=
  match ev.description with
  | some d =>
    if d = "" then [""]
    else
      ["**Description:** " ++ (if 300 < d.length then pyTake d 297 ++ "..." else d), ""]
  | none => [""]

/-- One formatted evidence block (`server.py` lines 704-758), for the `i`-th
record (1-based). -/
def formatEvidenceBlock (setOrder : List String → List String) (i : Nat)
    (ev : EvidenceNode) : List String :=
  ["### " ++ toString i ++ ". Evidence Item " ++ toString ev.id,
   "**Name:** " ++ orNA ev.name,
   "**Evidence Level:** " ++ orNA ev.evidenceLevel,
   "**Evidence Type:** " ++ orNA ev.evidenceType,
   "**Clinical Significance:** " ++ orNA ev.clinicalSignificance,
   "**Status:** " ++ orNA ev.status,
   ""] ++
  diseaseLines ev ++ mpLines setOrder ev ++ therapyLines ev ++
  sourceLines ev ++ descriptionLines ev

/-- The enumerated loop over all edges (`server.py` line 701:
`for i, edge in enumerate(edges, 1)`). -/
def formatBlocks (setOrder : List String → List String) (i : Nat) :
    List EvidenceNode → List String
  | [] => []
  | ev :: rest => formatEvidenceBlock setOrder i ev ++ formatBlocks setOrder (i + 1) rest

/-- The full evidence-search report (`server.py` lines 683-763): an empty
edge list short-circuits to the fixed no-results sentence; otherwise the
header lines and all blocks are joined with newlines. -/
def formatSearchReport (setOrder : List String → List String) (totalCount : Nat)
    (edges : List EvidenceNode) : String :=
  if edges.isEmpty then "No clinical evidence found matching the specified criteria."
  else
    "\n".intercalate
      (["## Clinical Evidence Search Results",
        "**Total Evidence Items Found:** " ++ commaFmt totalCount,
        "**Showing:** " ++ toString edges.length ++ " results",
        ""] ++ formatBlocks setOrder 1 edges)

/-! ## `server.py`: the detail-lookup formatters -/

/-- An alias object (`diseaseAliases`, `geneAliases`, `therapyAliases`
elements). -/
structure AliasObj where
  name : Option String := none

/-- The truthy alias names (`[alias.get('name') for alias in aliases if
alias.get('name')]`, `server.py` lines 797, 865, 930). -/
def aliasNames (aliases : List AliasObj) : List String :=
  aliases.filterMap (fun a =>
    match a.name with
    | some s => if s = "" then none else some s
    | none => none)

/-- Renders an optional integer field read with `.get(key, 'N/A')`. -/
def optNatNA : Option Nat → String
  | some n => toString n
  | none => "N/A"

/-- One disease object of the `diseases` match list consumed by the
`get_disease_details` handler (`server.py` lines 777-818). -/
structure DiseaseDetail where
  name : Option String := none
  id : Option Nat := none
  doid : Option String := none
  diseaseAliases : List AliasObj := []
  evidenceItemsTotal : Nat := 0
  assertionsTotal : Nat := 0
  molecularProfilesTotal : Nat := 0
  diseaseUrl : Option String := none

/-- The disease-detail report (`server.py` lines 787-822). -/
def formatDiseaseDetail (d : DiseaseDetail) : String :=
  "\n".intercalate
    (["## Disease Details: " ++ orNA d.name,
      "**ID:** " ++ optNatNA d.id,
      "**DOID:** " ++ orNA d.doid,
      ""] ++
     (if d.diseaseAliases.isEmpty then []
      else ["**Aliases:** " ++ ", ".intercalate (aliasNames d.diseaseAliases), ""]) ++
     ["**Evidence Items:** " ++ commaFmt d.evidenceItemsTotal,
      "**Assertions:** " ++ commaFmt d.assertionsTotal,
      "**Molecular Profiles:** " ++ commaFmt d.molecularProfilesTotal,
      ""] ++
     (match d.diseaseUrl with
      | some u => if u = "" then [] else ["**URL:** " ++ u]
      | none => []))

/-- The `get_disease_details` handler after the remote call (`server.py`
lines 777-823): an empty match list yields the fixed not-found text as
ordinary content; otherwise only `diseases[0]` is rendered. -/
def getDiseaseDetailsText (disease_name : String) : List DiseaseDetail → String
  | [] => "No disease found with name: " ++ disease_name
  | d :: _ => formatDiseaseDetail d

/-- One variant edge node of the gene-detail result (`server.py` lines
884-891). -/
structure VariantEdgeNode where
  name : Option String := none
  evidenceItemsTotal : Nat := 0

/-- One gene object of the `genes` match list consumed by the
`get_gene_details` handler (`server.py` lines 837-891). -/
structure GeneDetail where
  name : Option String := none
  id : Option Nat := none
  entrezId : Option Nat := none
  description : Option String := none
  geneAliases : List AliasObj := []
  variantsTotal : Nat := 0
  evidenceItemsTotal : Nat := 0
  assertionsTotal : Nat := 0
  variantEdges : List VariantEdgeNode := []

/-- The enumerated top-variant lines (`server.py` lines 887-891:
`for i, edge in enumerate(variant_edges[:5], 1)`). -/
def topVariantLines (i : Nat) : List VariantEdgeNode → List String
  | [] => []
  | v :: vs =>
    ("  " ++ toString i ++ ". " ++ orUnknown v.name ++ " (" ++
      toString v.evidenceItemsTotal ++ " evidence items)") :: topVariantLines (i + 1) vs

/-- The gene-detail report (`server.py` lines 847-895). -/
def formatGeneDetail (g : GeneDetail) : String :=
  "\n".intercalate
    (["## Gene Details: " ++ orNA g.name,
      "**ID:** " ++ optNatNA g.id,
      "**Entrez ID:** " ++ optNatNA g.entrezId,
      ""] ++
     (match g.description with
      | some s => if s = "" then [] else ["**Description:** " ++ s, ""]
      | none => []) ++
     (if g.geneAliases.isEmpty then []
      else ["**Aliases:** " ++ ", ".intercalate (aliasNames g.geneAliases), ""]) ++
     ["**Variants:** " ++ commaFmt g.variantsTotal,
      "**Evidence Items:** " ++ commaFmt g.evidenceItemsTotal,
      "**Assertions:** " ++ commaFmt g.assertionsTotal,
      ""] ++
     (if g.variantEdges.isEmpty then []
      else "**Top Variants:**" :: topVariantLines 1 (g.variantEdges.take 5)))

/-- The `get_gene_details` handler after the remote call (`server.py` lines
837-896): an empty match list yields the fixed not-found text as ordinary
content; otherwise only `genes[0]` is rendered. -/
def getGeneDetailsText (gene_name : String) : List GeneDetail → String
  | [] => "No gene found with name: " ++ gene_name
  | g :: _ => formatGeneDetail g

/-- One therapy object of the `therapies` match list consumed by the
`get_therapy_details` handler (`server.py` lines 910-949). -/
structure TherapyDetail where
  name : Option String := none
  id : Option Nat := none
  ncitId : Option String := none
  therapyAliases : List AliasObj := []
  evidenceItemsTotal : Nat := 0
  assertionsTotal : Nat := 0
  therapyUrl : Option String := none

/-- The therapy-detail report (`server.py` lines 920-953). -/
def formatTherapyDetail (t : TherapyDetail) : String :=
  "\n".intercalate
    (["## Therapy Details: " ++ orNA t.name,
      "**ID:** " ++ optNatNA t.id,
      "**NCIT ID:** " ++ orNA t.ncitId,
      ""] ++
     (if t.therapyAliases.isEmpty then []
      else ["**Aliases:** " ++ ", ".intercalate (aliasNames t.therapyAliases), ""]) ++
     ["**Evidence Items:** " ++ commaFmt t.evidenceItemsTotal,
      "**Assertions:** " ++ commaFmt t.assertionsTotal,
      ""] ++
     (match t.therapyUrl with
      | some u => if u = "" then [] else ["**URL:** " ++ u]
      | none => []))

/-- The `get_therapy_details` handler after the remote call (`server.py`
lines 910-954): an empty match list yields the fixed not-found text as
ordinary content; otherwise only `therapies[0]` is rendered. -/
def getTherapyDetailsText (therapy_name : String) : List TherapyDetail → String
  | [] => "No therapy found with name: " ++ therapy_name
  | t :: _ => formatTherapyDetail t

/-- Claim C9: every detail-lookup handler renders only the first entity of
the returned match list; appending further matches never changes the
report. -/
theorem c9_first_match_only (n : String) (d : DiseaseDetail) (g : GeneDetail)
    (t : TherapyDetail) (ds : List DiseaseDetail) (gs : List GeneDetail)
    (ts : List TherapyDetail) :
    getDiseaseDetailsText n (d :: ds) = getDiseaseDetailsText n [d] ∧
    getGeneDetailsText n (g :: gs) = getGeneDetailsText n [g] ∧
    getTherapyDetailsText n (t :: ts) = getTherapyDetailsText n [t] :=
  ⟨rfl, rfl, rfl⟩

/-! ## Claim theorems: C6, C7 -/

theorem setOrder_eq_of_small (o1 o2 : List String → List String)
    (h1 : SetOrderOK o1) (h2 : SetOrderOK o2) (l : List String)
    (hl : (distinctList l).length ≤ 1) : o1 l = o2 l := by
  have p1 := h1 l
  have p2 := h2 l
  cases hd : distinctList l with
  | nil =>
    rw [hd] at p1 p2
    rw [p1.eq_nil, p2.eq_nil]
  | cons a t =>
    cases t with
    | nil =>
      rw [hd] at p1 p2
      rw [List.perm_singleton.mp p1, List.perm_singleton.mp p2]
    | cons b t' =>
      rw [hd] at hl
      simp at hl

theorem mpLines_congr (o1 o2 : List String → List String)
    (h1 : SetOrderOK o1) (h2 : SetOrderOK o2) (ev : EvidenceNode)
    (hg : (distinctList (genesOf ev)).length ≤ 1) :
    mpLines o1 ev = mpLines o2 ev := by
  unfold mpLines
  cases hmp : ev.molecularProfile with
  | none => rfl
  | some mp =>
    have hgm : (distinctList (genesOfMp mp)).length ≤ 1 := by
      simpa [genesOf, hmp] using hg
    simp only [setOrder_eq_of_small o1 o2 h1 h2 _ hgm]

theorem formatEvidenceBlock_congr (o1 o2 : List String → List String)
    (h1 : SetOrderOK o1) (h2 : SetOrderOK o2) (i : Nat) (ev : EvidenceNode)
    (hg : (distinctList (genesOf ev)).length ≤ 1) :
    formatEvidenceBlock o1 i ev = formatEvidenceBlock o2 i ev := by
  unfold formatEvidenceBlock
  rw [mpLines_congr o1 o2 h1 h2 ev hg]

theorem formatBlocks_congr (o1 o2 : List String → List String)
    (h1 : SetOrderOK o1) (h2 : SetOrderOK o2) (edges : List EvidenceNode)
    (hg : ∀ ev ∈ edges, (distinctList (genesOf ev)).length ≤ 1) (i : Nat) :
    formatBlocks o1 i edges = formatBlocks o2 i edges := by
  induction edges generalizing i with
  | nil => rfl
  | cons ev rest ih =>
    unfold formatBlocks
    rw [formatEvidenceBlock_congr o1 o2 h1 h2 i ev (hg ev (by simp)),
      ih (fun e he => hg e (by simp [he]))]

/-- An evidence record whose molecular profile spans two distinct genes. -/
def evTwoGenes : EvidenceNode :=
  { id := 101,
    molecularProfile := some
      { variants :=
          [{ name := some "L858R", gene := some { name := some "EGFR" } },
           { name := some "V600E", gene := some { name := some "BRAF" } }] } }

/-- Claim C6, counterexample: `dedupOrder` and `revDedupOrder` are both
admissible iteration orders of Python `set(genes)` (both enumerate exactly
the distinct gene names), so a pair of interpreter runs may use one each;
on a record spanning genes `EGFR` and `BRAF` they yield reports that differ
character-for-character — the rendering is not run-independent. -/
theorem c6_counterexample :
    SetOrderOK dedupOrder ∧ SetOrderOK revDedupOrder ∧
    formatSearchReport dedupOrder 2 [evTwoGenes] ≠
      formatSearchReport revDedupOrder 2 [evTwoGenes] :=
  ⟨fun _ => List.Perm.refl _, fun l => List.reverse_perm (distinctList l), by decide⟩

/-- Claim C6, amended: the rendering is deterministic given the iteration
order of `set(genes)` — any two admissible orders yield
character-for-character identical reports whenever each record spans at most
one distinct gene name (in general the gene-name section's order may differ
between runs, as the counterexample shows); the gene-name section renders
exactly the deduplicated gene set of the record's variants (a permutation of
the distinct gene names), and variant names are rendered in original
encounter order. -/
theorem c6_deterministic_rendering (o1 o2 : List String → List String)
    (h1 : SetOrderOK o1) (h2 : SetOrderOK o2) :
    (∀ (totalCount : Nat) (edges : List EvidenceNode),
      (∀ ev ∈ edges, (distinctList (genesOf ev)).length ≤ 1) →
      formatSearchReport o1 totalCount edges = formatSearchReport o2 totalCount edges) ∧
    (∀ (i : Nat) (ev : EvidenceNode) (mp : MolecularProfileObj),
      ev.molecularProfile = some mp → mp.variants ≠ [] →
      ("**Genes:** " ++ ", ".intercalate (o1 (genesOfMp mp)))
        ∈ formatEvidenceBlock o1 i ev ∧
      (o1 (genesOfMp mp)).Perm (distinctList (genesOfMp mp)) ∧
      ("**Variants:** " ++ ", ".intercalate (mp.variants.map (fun v => orUnknown v.name)))
        ∈ formatEvidenceBlock o1 i ev) := by
  constructor
  · intro totalCount edges hg
    unfold formatSearchReport
    by_cases he : edges.isEmpty
    · simp [he]
    · simp only [he, if_neg, Bool.false_eq_true, not_false_iff]
      rw [formatBlocks_congr o1 o2 h1 h2 edges hg 1]
  · intro i ev mp hmp hne
    have hml : mpLines o1 ev =
        ["**Genes:** " ++ ", ".intercalate (o1 (genesOfMp mp)),
         "**Variants:** " ++ ", ".intercalate (mp.variants.map (fun v => orUnknown v.name))] := by
      unfold mpLines
      rw [hmp]
      simp [List.isEmpty_iff, hne]
    refine ⟨?_, h1 (genesOfMp mp), ?_⟩ <;>
      simp [formatEvidenceBlock, List.mem_append, hml]

/-- An evidence record whose two variants share one gene. -/
def evOneGene : EvidenceNode :=
  { id := 7,
    molecularProfile := some
      { variants :=
          [{ name := some "L858R", gene := some { name := some "EGFR" } },
           { name := some "T790M", gene := some { name := some "EGFR" } }] } }

/-- Witness for the amended C6 at two concrete admissible orders and a
single-gene record. -/
theorem c6_deterministic_rendering_witness :
    formatSearchReport dedupOrder 3 [evOneGene] =
      formatSearchReport revDedupOrder 3 [evOneGene] :=
  (c6_deterministic_rendering dedupOrder revDedupOrder
      (fun _ => List.Perm.refl _)
      (fun l => List.reverse_perm (distinctList l))).1
    3 [evOneGene] (by decide)

/-- Claim C7: a truthy description longer than 300 characters is rendered as
its first 297 characters followed by the ellipsis marker; a truthy
description of at most 300 characters is rendered unchanged. -/
theorem c7_description_truncation (setOrder : List String → List String)
    (i : Nat) (ev : EvidenceNode) (d : String) (hd : ev.description = some d) :
    (300 < d.length →
      ("**Description:** " ++ (pyTake d 297 ++ "...")) ∈ formatEvidenceBlock setOrder i ev) ∧
    (d.length ≤ 300 → d ≠ "" →
      ("**Description:** " ++ d) ∈ formatEvidenceBlock setOrder i ev) := by
  constructor
  · intro hlen
    have hne : d ≠ "" := by
      intro h
      rw [h] at hlen
      simp [String.length] at hlen
    have hmem : ("**Description:** " ++ (pyTake d 297 ++ "..."))
        ∈ descriptionLines ev := by
      simp [descriptionLines, hd, hne, hlen]
    simp [formatEvidenceBlock, List.mem_append, hmem]
  · intro hlen hne
    have hmem : ("**Description:** " ++ d) ∈ descriptionLines ev := by
      simp [descriptionLines, hd, hne, Nat.not_lt_of_le hlen]
    simp [formatEvidenceBlock, List.mem_append, hmem]

/-- A 310-character description. -/
def d310 : String := String.mk (List.replicate 310 'a')

/-- An evidence record carrying the 310-character description. -/
def ev310 : EvidenceNode := { id := 9, description := some d310 }

/-- Witness for C7 at a 310-character description. -/
theorem c7_description_truncation_witness :
    300 < d310.length ∧
    ("**Description:** " ++ (pyTake d310 297 ++ "..."))
      ∈ formatEvidenceBlock dedupOrder 1 ev310 :=
  ⟨by norm_num [d310, String.length],
   (c7_description_truncation dedupOrder 1 ev310 d310 rfl).1
     (by norm_num [d310, String.length])⟩

/-! ## `working_server.py`: JSON-RPC dispatch and transport loop -/

/-- A JSON-RPC message id value: a number, a string, or JSON `null`
(`request.get("id")` passes it through unchanged). -/
inductive JsonId where
  | num (n : Int)
  | str (s : String)
  | null

/-- The `arguments` object of a `tools/call` request, as read by
`working_server.py` lines 172, 201-202: `disease_name` is accessed with
`tool_args["disease_name"]` (a missing key raises `KeyError`), `limit`
with `tool_args.get("limit", 5)`. -/
structure ToolArgs where
  disease_name : Option String := none
  limit : Option Int := none

/-- A parsed incoming JSON-RPC message, with the fields `handle_request`
and the main loop read (`working_server.py` lines 105-110, 319):
`method = request.get("method")`, `id` is `none` exactly when the `"id"`
key is absent, `paramsName = params.get("name")` and `paramsArgs` the
`arguments` object. -/
structure MCPRequest where
  method : Option String := none
  id : Option JsonId := none
  paramsName : Option String := none
  paramsArgs : ToolArgs := {}

/-- The `GetStats` result data (`working_server.py` lines 177-178). -/
structure StatsData where
  evidenceTotal : Nat := 0
  genesTotal : Nat := 0

/-- A `molecularProfile` object of a `working_server.py` evidence node. -/
structure WsMolecularProfile where
  name : Option String := none

/-- A `source` object of a `working_server.py` evidence node. -/
structure WsSourceObj where
  citation : Option String := none
  publicationYear : Option Int := none

/-- One evidence node of the `SearchEvidence` result, as consumed by the
`search_disease_evidence` formatter (`working_server.py` lines 220-241). -/
structure WsEvidenceNode where
  name : Option String := none
  evidenceLevel : Option String := none
  evidenceType : Option String := none
  status : Option String := none
  molecularProfile : Option WsMolecularProfile := none
  source : Option WsSourceObj := none

/-- The `SearchEvidence` result data (`working_server.py` lines 206-208). -/
structure SearchResultData where
  totalCount : Nat := 0
  edges : List WsEvidenceNode := []

/-- The remote CIViC endpoint as observed by one `handle_request` call:
each remote method either returns its decoded data or raises an exception
with a message (the `Except.error` case feeds the handler's
`except` clause, lines 278-287). -/
structure RemoteEnv where
  stats : Except String StatsData
  search : String → Int → Except String SearchResultData

/-- The result payload of a successful response (`working_server.py`
lines 114-256): the fixed `initialize` descriptor, the static tool list, or
wrapped text content `\x7bcontent: [\x7btype: "text", text\x7d]\x7d`. -/
inductive RpcPayload where
  | initResult
  | toolsList
  | content (text : String)

/-- One emitted JSON-RPC response object: either `\x7bjsonrpc, id, result\x7d` or
`\x7bjsonrpc, id, error: \x7bcode, message\x7d\x7d`, always tagged with the request's
id. -/
inductive RpcResponse where
  | result (id : Option JsonId) (payload : RpcPayload)
  | error (id : Option JsonId) (code : Int) (message : String)

/-- The id field of an emitted response. -/
def RpcResponse.rid : RpcResponse → Option JsonId
  | .result i _ => i
  | .error i _ _ => i

/-- The `get_civic_stats` response text (`working_server.py` lines
180-185). -/
def statsText (s : StatsData) : String :=
  "## CIViC Database Statistics\n\n**Evidence Items:** " ++ commaFmt s.evidenceTotal ++
    "\n**Genes:** " ++ commaFmt s.genesTotal ++
    "\n\nThe CIViC database contains curated clinical interpretations of variants in cancer."

/-- One formatted evidence block of the `search_disease_evidence` response
(`working_server.py` lines 220-241). -/
def wsBlock (i : Nat) (ev : WsEvidenceNode) : List String :=
  ["### " ++ toString i ++ ". " ++ orNA ev.name,
   "- **Level:** " ++ orNA ev.evidenceLevel,
   "- **Type:** " ++ orNA ev.evidenceType,
   "- **Status:** " ++ orNA ev.status,
   "- **Molecular Profile:** " ++
     (match ev.molecularProfile with
      | some m => orNA m.name
      | none => "N/A")] ++
  (match ev.source with
   | some s =>
     match s.publicationYear with
     | some y =>
       if y = 0 then ["- **Source:** " ++ orNA s.citation]
       else ["- **Source:** " ++ orNA s.citation ++ " (" ++ toString y ++ ")"]
     | none => ["- **Source:** " ++ orNA s.citation]
   | none => []) ++
  [""]

/-- The enumerated loop over the result edges (`working_server.py` line
220). -/
def wsBlocks (i : Nat) : List WsEvidenceNode → List String
  | [] => []
  | ev :: rest => wsBlock i ev ++ wsBlocks (i + 1) rest

/-- The `search_disease_evidence` response text (`working_server.py` lines
210-243): a zero total count yields the fixed not-found sentence, otherwise
the header lines and all blocks joined with newlines. -/
def searchDiseaseText (disease_name : String) (d : SearchResultData) : String :=
  if d.totalCount = 0 then "No evidence found for \x27" ++ disease_name ++ "\x27"
  else
    "\n".intercalate
      (["## Evidence for " ++ disease_name,
        "**Total found:** " ++ commaFmt d.totalCount,
        "**Showing:** " ++ toString d.edges.length ++ " results",
        ""] ++ wsBlocks 1 d.edges)

/-- Embedding of `handle_request` (`working_server.py` lines 105-287): the
`if/elif/else` dispatch on `method`, the tool-name dispatch inside
`tools/call`, and the enclosing `try/except` that converts a raised
exception — a remote failure or the `KeyError` of a missing
`disease_name` — into error code -32603 with the exception's text. -/
def handleRequest (env : RemoteEnv) (req : MCPRequest) : RpcResponse :=
  if req.method = some "initialize" then .result req.id .initResult
  else if req.method = some "tools/list" then .result req.id .toolsList
  else if req.method = some "tools/call" then
    if req.paramsName = some "get_civic_stats" then
      match env.stats with
      | .ok s => .result req.id (.content (statsText s))
      | .error e => .error req.id (-32603) ("Internal error: " ++ e)
    else if req.paramsName = some "search_disease_evidence" then
      match req.paramsArgs.disease_name with
      | none => .error req.id (-32603) "Internal error: \x27disease_name\x27"
      | some dn =>
        match env.search dn (req.paramsArgs.limit.getD 5) with
        | .ok data => .result req.id (.content (searchDiseaseText dn data))
        | .error e => .error req.id (-32603) ("Internal error: " ++ e)
    else .error req.id (-32602) ("Unknown tool: " ++ pyOptStr req.paramsName)
  else .error req.id (-32601) ("Method not found: " ++ pyOptStr req.method)

/-- Embedding of the per-message step of the transport loop
(`working_server.py` lines 314-331): a parsed message without an `"id"` key
is a notification and produces no output line; a message with an id is
answered by printing exactly the one response `handle_request` returns. -/
def processMessage (env : RemoteEnv) (req : MCPRequest) : List RpcResponse :=
  match req.id with
  | none => []
  | some _ => [handleRequest env req]

/-- Every branch of `handle_request` tags its response with the request's
id. -/
theorem handleRequest_rid (env : RemoteEnv) (req : MCPRequest) :
    (handleRequest env req).rid = req.id := by
  unfold handleRequest
  split_ifs <;> (repeat' split) <;> rfl

/-! ## Claim theorems: C2, C3, C5 -/

/-- Claim C2: a `tools/call` request whose tool name is not in the registry
is answered with error code -32602, and a request whose method is none of
the dispatched methods is answered with error code -32601. -/
theorem c2_error_codes (env : RemoteEnv) (req : MCPRequest) :
    (req.method = some "tools/call" →
      req.paramsName ≠ some "get_civic_stats" →
      req.paramsName ≠ some "search_disease_evidence" →
      handleRequest env req =
        .error req.id (-32602) ("Unknown tool: " ++ pyOptStr req.paramsName)) ∧
    (req.method ≠ some "initialize" → req.method ≠ some "tools/list" →
      req.method ≠ some "tools/call" →
      handleRequest env req =
        .error req.id (-32601) ("Method not found: " ++ pyOptStr req.method)) := by
  constructor
  · intro hm ht1 ht2
    simp [handleRequest, hm, ht1, ht2]
  · intro h1 h2 h3
    simp [handleRequest, h1, h2, h3]

/-- A remote environment whose calls all succeed trivially. -/
def envNull : RemoteEnv := { stats := .ok {}, search := fun _ _ => .ok {} }

/-- A `tools/call` request naming an unregistered tool. -/
def reqUnknownTool : MCPRequest :=
  { method := some "tools/call", id := some (.num 1), paramsName := some "make_coffee" }

/-- A request with an undispatched method. -/
def reqUnknownMethod : MCPRequest :=
  { method := some "resources/list", id := some (.num 2) }

/-- Witness for C2 at concrete requests. -/
theorem c2_error_codes_witness :
    handleRequest envNull reqUnknownTool =
      .error (some (.num 1)) (-32602) "Unknown tool: make_coffee" ∧
    handleRequest envNull reqUnknownMethod =
      .error (some (.num 2)) (-32601) "Method not found: resources/list" :=
  ⟨(c2_error_codes envNull reqUnknownTool).1 rfl (by decide) (by decide),
   (c2_error_codes envNull reqUnknownMethod).2 (by decide) (by decide) (by decide)⟩

/-- Claim C3: a message carrying an id is answered by exactly one response
line whose id equals the request's id; a message without an id (a
notification) produces no output line. -/
theorem c3_transport_ids (env : RemoteEnv) (req : MCPRequest) :
    (∀ i, req.id = some i →
      processMessage env req = [handleRequest env req] ∧
      (handleRequest env req).rid = some i) ∧
    (req.id = none → processMessage env req = []) := by
  constructor
  · intro i hi
    constructor
    · unfold processMessage
      rw [hi]
    · rw [handleRequest_rid, hi]
  · intro hi
    unfold processMessage
    rw [hi]

/-- A `tools/call` request carrying id 3. -/
def reqStatsCall : MCPRequest :=
  { method := some "tools/call", id := some (.num 3), paramsName := some "get_civic_stats" }

/-- The `initialized` lifecycle notification (no id). -/
def reqInitializedNote : MCPRequest := { method := some "initialized" }

/-- Witness for C3 at a concrete request and a concrete notification. -/
theorem c3_transport_ids_witness :
    (processMessage envNull reqStatsCall = [handleRequest envNull reqStatsCall] ∧
      (handleRequest envNull reqStatsCall).rid = some (.num 3)) ∧
    processMessage envNull reqInitializedNote = [] :=
  ⟨(c3_transport_ids envNull reqStatsCall).1 (.num 3) rfl,
   (c3_transport_ids envNull reqInitializedNote).2 rfl⟩

/-- Claim C5: a result with no matched evidence records formats to exactly
the fixed no-results sentence; every detail-lookup handler answers an empty
match list with its entity-specific not-found text; and the
`working_server.py` handler returns its zero-result text as an ordinary
successful `result` response (the `RpcResponse.result` constructor), not a
protocol error. -/
theorem c5_zero_results :
    (∀ (setOrder : List String → List String) (totalCount : Nat),
      formatSearchReport setOrder totalCount [] =
        "No clinical evidence found matching the specified criteria.") ∧
    (∀ n, getDiseaseDetailsText n [] = "No disease found with name: " ++ n) ∧
    (∀ n, getGeneDetailsText n [] = "No gene found with name: " ++ n) ∧
    (∀ n, getTherapyDetailsText n [] = "No therapy found with name: " ++ n) ∧
    (∀ (env : RemoteEnv) (req : MCPRequest) (dn : String) (sd : SearchResultData),
      req.method = some "tools/call" →
      req.paramsName = some "search_disease_evidence" →
      req.paramsArgs.disease_name = some dn →
      env.search dn (req.paramsArgs.limit.getD 5) = .ok sd →
      sd.totalCount = 0 →
      handleRequest env req =
        .result req.id (.content ("No evidence found for \x27" ++ dn ++ "\x27"))) := by
  refine ⟨fun _ _ => rfl, fun _ => rfl, fun _ => rfl, fun _ => rfl, ?_⟩
  intro env req dn sd hm hp hdn hs h0
  simp [handleRequest, hm, hp, hdn, hs, searchDiseaseText, h0]

/-- A remote environment whose searches match nothing. -/
def envNoEvidence : RemoteEnv :=
  { stats := .ok {}, search := fun _ _ => .ok { totalCount := 0 } }

/-- A `search_disease_evidence` call for a disease with no evidence. -/
def reqSearchFoo : MCPRequest :=
  { method := some "tools/call", id := some (.num 4),
    paramsName := some "search_disease_evidence",
    paramsArgs := { disease_name := some "Foobarosis" } }

/-- Witness for C5 at a concrete zero-result call. -/
theorem c5_zero_results_witness :
    handleRequest envNoEvidence reqSearchFoo =
      .result (some (.num 4)) (.content "No evidence found for \x27Foobarosis\x27") :=
  c5_zero_results.2.2.2.2 envNoEvidence reqSearchFoo "Foobarosis" { totalCount := 0 }
    rfl rfl rfl rfl rfl
